import Mathlib

/-!
Verification of the credential core and tool dispatcher of the
mcp_onenote server (src/server.js) against its specification.

The JavaScript source is embedded shallowly:
- the MSAL client and the network are oracles carried in environment
  structures (what deserializing a blob yields, what acquireTokenSilent
  and acquireTokenByDeviceCode return, what each fetch returns);
- each source function becomes a pure Lean function from such an
  environment to its result, together with a trace of the observable
  calls it makes (which auth flows ran, how many fetches were issued,
  how long the code waited between them);
- a thrown JavaScript exception becomes an Except.error value that
  propagates exactly where the source lets it propagate.
-/

/-- An MSAL account record, compared by its stable identifier. -/
structure Account where
  homeAccountId : String
deriving DecidableEq, Repr

/-- Outcome of one MSAL token acquisition call (acquireTokenSilent or
acquireTokenByDeviceCode): either a response carrying accessToken, or a
thrown error. -/
inductive AuthResult where
  | success (token : String)
  | failure (err : String)
deriving DecidableEq, Repr

/-- Whether the acquisition call returned a response rather than throwing. -/
def AuthResult.isSuccess : AuthResult → Bool
  | .success _ => true
  | .failure _ => false

/-- Observable calls made by getAccessToken, in order. -/
inductive AuthCall where
  | silent (a : Account)
  | deviceCode
deriving DecidableEq, Repr

/-- The Credential Store file plus the MSAL deserializer.
store is the content of TOKEN_CACHE_PATH (none when the file is absent).
deserialize is the MSAL tokenCache.deserialize oracle: on a well formed
blob it yields the account list the blob holds; on a malformed or
foreign blob it throws, which we model as Except.error. -/
structure CacheEnv where
  store : Option String
  deserialize : String → Except String (List Account)

/-- pca.getTokenCache().getAllAccounts() with the cachePlugin of
server.js lines 34 to 45 installed: beforeCacheAccess deserializes the
file when it exists, with no try/catch, so a deserialize error
propagates to the caller; when the file is absent nothing is loaded and
the account list is empty. -/
def getAllAccounts (c : CacheEnv) : Except String (List Account) :=
  match c.store with
  | none => .ok []
  | some blob => c.deserialize blob

/-- Environment of one getAccessToken call: the cache plus the MSAL
acquisition oracles. -/
structure ProviderEnv where
  cache : CacheEnv
  silentResult : Account → AuthResult
  deviceResult : AuthResult

/-- getAccessToken, server.js lines 73 to 108. Reads all accounts; when
at least one exists, tries acquireTokenSilent on accounts[0] and returns
its accessToken on success, falling through on any error; then runs the
device code flow, returning its accessToken or rethrowing its error.
A getAllAccounts error (corrupt cache) propagates uncaught.
Returns the list of acquisition calls made and the result. -/
def getAccessToken (env : ProviderEnv) : List AuthCall × Except String String :=
  match getAllAccounts env.cache with
  | .error e => ([], .error e)
  | .ok [] =>
      match env.deviceResult with
      | .success t => ([.deviceCode], .ok t)
      | .failure e => ([.deviceCode], .error e)
  | .ok (a :: _) =>
      match env.silentResult a with
      | .success t => ([.silent a], .ok t)
      | .failure _ =>
          match env.deviceResult with
          | .success t => ([.silent a, .deviceCode], .ok t)
          | .failure e => ([.silent a, .deviceCode], .error e)

/-- A provider environment with an absent store file and a device code
flow that succeeds. -/
def emptyCacheEnv : ProviderEnv :=
  { cache := { store := none, deserialize := fun _ => .error "unused" },
    silentResult := fun _ => .failure "unused",
    deviceResult := .success "device-token" }

/-- C1: for every token request made against an empty Token Cache
(getAllAccounts returns no accounts), getAccessToken never calls
acquireTokenSilent and proceeds directly to acquireTokenByDeviceCode;
on success of that flow it returns the resulting access token string. -/
theorem c1_empty_cache_goes_straight_to_device_flow (env : ProviderEnv)
    (h : getAllAccounts env.cache = .ok []) :
    (getAccessToken env).1 = [AuthCall.deviceCode] ∧
    (∀ a, AuthCall.silent a ∉ (getAccessToken env).1) ∧
    (∀ t, env.deviceResult = .success t → (getAccessToken env).2 = .ok t) := by
  unfold getAccessToken
  rw [h]
  cases hd : env.deviceResult with
  | success t => exact ⟨rfl, by simp, fun t' ht => by simp_all⟩
  | failure e => exact ⟨rfl, by simp, fun t' ht => by simp_all⟩

/-- Witness for C1 at a concrete environment: store file absent, device
flow succeeding with a concrete token. -/
theorem c1_witness :
    getAllAccounts emptyCacheEnv.cache = .ok [] ∧
    (getAccessToken emptyCacheEnv).1 = [AuthCall.deviceCode] ∧
    (getAccessToken emptyCacheEnv).2 = .ok "device-token" := by
  have h := c1_empty_cache_goes_straight_to_device_flow emptyCacheEnv rfl
  exact ⟨rfl, h.1, h.2.2 "device-token" rfl⟩

/-- Whether an Except call returned normally. -/
def exceptIsOk {ε α : Type} : Except ε α → Bool
  | .ok _ => true
  | .error _ => false

/-- C6: for every Token Cache containing one or more accounts,
getAccessToken deterministically attempts Silent Renewal on the first
account of the list, whatever the remaining accounts are, and a cache
with more than one account never causes a crash: the call always
reaches a defined outcome, successful exactly when the silent attempt
or the device code flow succeeds. -/
theorem c6_first_account_deterministic_no_crash (env : ProviderEnv)
    (a : Account) (rest : List Account)
    (h : getAllAccounts env.cache = .ok (a :: rest)) :
    (getAccessToken env).1.head? = some (AuthCall.silent a) ∧
    exceptIsOk (getAccessToken env).2 =
      ((env.silentResult a).isSuccess || env.deviceResult.isSuccess) := by
  simp only [getAccessToken, h]
  cases hs : env.silentResult a <;> cases hd : env.deviceResult <;>
    simp [hs, hd, AuthResult.isSuccess, exceptIsOk]

/-- A provider environment holding two cached accounts whose silent
renewals fail, with a device code flow that succeeds. -/
def twoAccountEnv : ProviderEnv :=
  { cache := { store := some "blob",
               deserialize := fun _ =>
                 .ok [{ homeAccountId := "acct-1" }, { homeAccountId := "acct-2" }] },
    silentResult := fun _ => .failure "interaction_required",
    deviceResult := .success "fresh-token" }

/-- Witness for C6 at a concrete two account cache. -/
theorem c6_witness :
    getAllAccounts twoAccountEnv.cache =
      .ok [{ homeAccountId := "acct-1" }, { homeAccountId := "acct-2" }] ∧
    (getAccessToken twoAccountEnv).1.head? =
      some (AuthCall.silent { homeAccountId := "acct-1" }) ∧
    exceptIsOk (getAccessToken twoAccountEnv).2 = true := by
  have h := c6_first_account_deterministic_no_crash twoAccountEnv
    { homeAccountId := "acct-1" } [{ homeAccountId := "acct-2" }] rfl
  exact ⟨rfl, h.1, by rw [h.2]; rfl⟩

/-- C8: for every token request in which Silent Renewal fails, the
provider falls through to a single device code attempt with no second
silent attempt (the trace is exactly one silent call then one device
code call); if the device code flow also fails, its error is rethrown
to the caller, and the surrounding tool operation reports an error. -/
theorem c8_silent_failure_falls_through_once (env : ProviderEnv)
    (a : Account) (rest : List Account) (msg : String)
    (hacc : getAllAccounts env.cache = .ok (a :: rest))
    (hsil : env.silentResult a = .failure msg) :
    (getAccessToken env).1 = [AuthCall.silent a, AuthCall.deviceCode] ∧
    (∀ e, env.deviceResult = .failure e → (getAccessToken env).2 = .error e) ∧
    (∀ t, env.deviceResult = .success t → (getAccessToken env).2 = .ok t) := by
  simp only [getAccessToken, hacc]
  cases hd : env.deviceResult <;>
    simp_all [hsil]

/-- A provider environment with one cached account whose silent renewal
fails, and a device code flow that also fails. -/
def failingEnv : ProviderEnv :=
  { cache := { store := some "blob",
               deserialize := fun _ => .ok [{ homeAccountId := "acct-1" }] },
    silentResult := fun _ => .failure "refresh_token_expired",
    deviceResult := .failure "authorization_declined" }

/-- Witness for C8 at a concrete environment where both flows fail. -/
theorem c8_witness :
    getAllAccounts failingEnv.cache = .ok [{ homeAccountId := "acct-1" }] ∧
    failingEnv.silentResult { homeAccountId := "acct-1" } =
      .failure "refresh_token_expired" ∧
    (getAccessToken failingEnv).1 =
      [AuthCall.silent { homeAccountId := "acct-1" }, AuthCall.deviceCode] ∧
    (getAccessToken failingEnv).2 = .error "authorization_declined" := by
  have h := c8_silent_failure_falls_through_once failingEnv
    { homeAccountId := "acct-1" } [] "refresh_token_expired" rfl rfl
  exact ⟨rfl, rfl, h.1, h.2.1 "authorization_declined" rfl⟩

/-- A provider environment whose store file holds a malformed blob: the
MSAL deserializer throws on it, while both acquisition flows would
succeed if reached. -/
def corruptCacheEnv : ProviderEnv :=
  { cache := { store := some "!!not a cache!!",
               deserialize := fun _ => .error "ClientAuthError: invalid cache blob" },
    silentResult := fun _ => .success "silent-token",
    deviceResult := .success "fresh-device-token" }

/-- Counterexample to C2 as stated: with a malformed blob in the store
and a device code flow that would succeed, the token request does not
complete via the interactive path. The deserialize error is not caught
by the cache plugin, so getAccessToken aborts before any acquisition
call: the device code flow is never invoked and the result is the
propagated deserialize error, not the device token. -/
theorem c2_counterexample :
    (getAccessToken corruptCacheEnv).2 ≠ .ok "fresh-device-token" ∧
    AuthCall.deviceCode ∉ (getAccessToken corruptCacheEnv).1 ∧
    (getAccessToken corruptCacheEnv).2 =
      .error "ClientAuthError: invalid cache blob" := by
  refine ⟨?_, ?_, rfl⟩ <;> simp [getAccessToken, getAllAccounts, corruptCacheEnv]

/-- fs.writeFileSync as used in afterCacheAccess: the target file is
opened with truncation and the data is written in place. crashAt none
models a completed write; crashAt (some k) models a crash after k bytes
of the new data reached the disk: the file then holds only that prefix,
the previous content having already been truncated away. -/
def writeFileSyncResult (data : String) (crashAt : Option Nat) : String :=
  match crashAt with
  | none => data
  | some k => String.mk (data.data.take k)

/-- cachePlugin.afterCacheAccess, server.js lines 40 to 44: when
context.cacheHasChanged, write serialize() to TOKEN_CACHE_PATH with a
single in place writeFileSync; otherwise leave the store untouched.
store is the file content before the call (none when absent); the
result is the file content after it, given the crash behaviour of the
write. -/
def afterCacheAccess (cacheHasChanged : Bool) (serialized : String)
    (store : Option String) (crashAt : Option Nat) : Option String :=
  if cacheHasChanged then some (writeFileSyncResult serialized crashAt) else store

/-- Counterexample to C3 as stated: the save is an in place truncate
and rewrite, so a crash mid write can leave the file holding a strict
prefix of the new serialization, which is neither the previously
existing valid blob nor the complete new one. -/
theorem c3_counterexample :
    ¬ (afterCacheAccess true "NEWBLOB" (some "OLDBLOB") (some 1) = some "OLDBLOB" ∨
       afterCacheAccess true "NEWBLOB" (some "OLDBLOB") (some 1) = some "NEWBLOB") := by
  decide

/-- C3 amended: the save is not atomic. afterCacheAccess rewrites the
existing file in place, so for every nonempty previously existing blob
and every nonempty new serialization there is a crash point whose
outcome is neither the old blob nor the new one (the old blob is
destroyed without the new one being complete). -/
theorem c3_amended_in_place_write_can_corrupt (old s : String)
    (hold : old ≠ "") (hs : s ≠ "") :
    ∃ k, afterCacheAccess true s (some old) (some k) ≠ some old ∧
         afterCacheAccess true s (some old) (some k) ≠ some s := by
  refine ⟨0, ?_, ?_⟩ <;>
    simp only [afterCacheAccess, writeFileSyncResult, if_true, List.take_zero,
      Option.some.injEq]
  · intro h
    exact hold (by cases old with
      | mk l => cases h; rfl)
  · intro h
    exact hs (by cases s with
      | mk l => cases h; rfl)

/-- Witness for the amended C3 at concrete blobs: crashing after zero
bytes leaves an empty file, which is neither blob. -/
theorem c3_amended_witness :
    ("OLDBLOB" : String) ≠ "" ∧ ("NEWBLOB" : String) ≠ "" ∧
    ∃ k, afterCacheAccess true "NEWBLOB" (some "OLDBLOB") (some k) ≠ some "OLDBLOB" ∧
         afterCacheAccess true "NEWBLOB" (some "OLDBLOB") (some k) ≠ some "NEWBLOB" := by
  exact ⟨by decide, by decide,
    c3_amended_in_place_write_can_corrupt "OLDBLOB" "NEWBLOB" (by decide) (by decide)⟩

/-- C7: for every token request in which the in memory cache content
did not change (context.cacheHasChanged is false, as after a silent
renewal served from the still valid cache), afterCacheAccess leaves the
Credential Store artifact exactly as it was: no write is issued. -/
theorem c7_unchanged_cache_store_untouched (serialized : String)
    (store : Option String) (crashAt : Option Nat) :
    afterCacheAccess false serialized store crashAt = store := by
  simp [afterCacheAccess]

/-- One fetch response as graphRequest observes it. retryAfterHeader is
the numeric value of the Retry-After header when the server sent one.
contentTypeJson states whether the content-type header mentions
application/json. errorMessage is the error.message field when the body
parses as JSON carrying one (the JSON.parse of the source is modelled
by this precomputed field); body is the raw text. -/
structure HttpResponse where
  status : Nat
  statusText : String
  retryAfterHeader : Option Nat
  contentTypeJson : Bool
  body : String
  errorMessage : Option String
deriving DecidableEq, Repr

/-- node-fetch response.ok: status in the 200 to 299 range. -/
def respOk (r : HttpResponse) : Bool :=
  decide (200 ≤ r.status) && decide (r.status < 300)

/-- A successful graphRequest result: parsed JSON when the content type
says JSON, raw text otherwise. Both carry the body text. -/
inductive GraphResult where
  | json (body : String)
  | text (body : String)
deriving DecidableEq, Repr

/-- The error message graphRequest builds from a non success response:
the status code and status text, then the server provided error.message
when the body parses as JSON holding one, else the raw body text. -/
def graphErrorMessage (r : HttpResponse) : String :=
  let base := "Graph API Error: " ++ toString r.status ++ " " ++ r.statusText
  match r.errorMessage with
  | some m => base ++ " - " ++ m
  | none => base ++ " - " ++ r.body

/-- Observable outcome of the HTTP part of a request: how many fetches
were issued, the seconds waited between them, and the result. -/
structure HttpTrace where
  fetchCount : Nat
  waits : List Nat
  result : Except String GraphResult
deriving Repr

/-- Lines 126 to 157 of graphRequest: issue the fetch; on a 429 status
wait Retry-After seconds (1 when the header is absent) and fetch once
more; then either return the parsed body or throw the assembled error.
fetchResp n is the response to the n-th fetch of this request. -/
def graphRequestHttp (fetchResp : Nat → HttpResponse) : HttpTrace :=
  let r0 := fetchResp 0
  if r0.status = 429 then
    let delay := r0.retryAfterHeader.getD 1
    let r1 := fetchResp 1
    if respOk r1 then
      { fetchCount := 2, waits := [delay],
        result := .ok (if r1.contentTypeJson then .json r1.body else .text r1.body) }
    else
      { fetchCount := 2, waits := [delay], result := .error (graphErrorMessage r1) }
  else
    if respOk r0 then
      { fetchCount := 1, waits := [],
        result := .ok (if r0.contentTypeJson then .json r0.body else .text r0.body) }
    else
      { fetchCount := 1, waits := [], result := .error (graphErrorMessage r0) }

/-- graphRequest, server.js lines 110 to 157: acquire a token first (an
acquisition error propagates and no fetch happens), then run the HTTP
part. Returns the acquisition trace alongside the HTTP trace. -/
def graphRequest (env : ProviderEnv) (fetchResp : Nat → HttpResponse) :
    List AuthCall × HttpTrace :=
  match getAccessToken env with
  | (calls, .error e) => (calls, { fetchCount := 0, waits := [], result := .error e })
  | (calls, .ok _) => (calls, graphRequestHttp fetchResp)

/-- C5: for every graphRequest whose first fetch returns HTTP 429, the
client waits the Retry-After delay (1 second when the header is absent)
and retries exactly once, never a third fetch; when the retried
response is still non success the request fails with the assembled
error, which starts with the HTTP status code and status text and ends
with the server provided message when one is present. -/
theorem c5_throttle_retry_once (env : ProviderEnv)
    (fetchResp : Nat → HttpResponse) (tok : String)
    (hauth : (getAccessToken env).2 = .ok tok)
    (h429 : (fetchResp 0).status = 429) :
    (graphRequest env fetchResp).2.fetchCount = 2 ∧
    (graphRequest env fetchResp).2.waits =
      [(fetchResp 0).retryAfterHeader.getD 1] ∧
    (respOk (fetchResp 1) = false →
      (graphRequest env fetchResp).2.result =
        .error (graphErrorMessage (fetchResp 1))) ∧
    (∀ m, (fetchResp 1).errorMessage = some m →
      graphErrorMessage (fetchResp 1) =
        "Graph API Error: " ++ toString (fetchResp 1).status ++ " "
          ++ (fetchResp 1).statusText ++ " - " ++ m) := by
  have hsplit : getAccessToken env = ((getAccessToken env).1, Except.ok tok) := by
    rw [← hauth]
  have hgr : graphRequest env fetchResp =
      ((getAccessToken env).1, graphRequestHttp fetchResp) := by
    unfold graphRequest
    rw [hsplit]
  refine ⟨?_, ?_, ?_, ?_⟩
  · rw [hgr]
    simp [graphRequestHttp, h429]
    split <;> rfl
  · rw [hgr]
    simp [graphRequestHttp, h429]
    split <;> rfl
  · intro hko
    rw [hgr]
    simp [graphRequestHttp, h429, hko]
  · intro m hm
    simp [graphErrorMessage, hm]

/-- A fetch oracle that answers HTTP 429 with Retry-After 2 to every
fetch; the second answer carries a server provided error message. -/
def throttleFetch : Nat → HttpResponse :=
  fun n =>
    if n = 0 then
      { status := 429, statusText := "Too Many Requests", retryAfterHeader := some 2,
        contentTypeJson := true, body := "", errorMessage := none }
    else
      { status := 429, statusText := "Too Many Requests", retryAfterHeader := some 2,
        contentTypeJson := true, body := "busy", errorMessage := some "Too many requests." }

/-- Witness for C5: a concrete request that is throttled twice waits 2
seconds, fetches exactly twice and surfaces the status plus the server
message. -/
theorem c5_witness :
    (getAccessToken emptyCacheEnv).2 = .ok "device-token" ∧
    (throttleFetch 0).status = 429 ∧
    (graphRequest emptyCacheEnv throttleFetch).2.fetchCount = 2 ∧
    (graphRequest emptyCacheEnv throttleFetch).2.waits = [2] ∧
    (graphRequest emptyCacheEnv throttleFetch).2.result =
      .error "Graph API Error: 429 Too Many Requests - Too many requests." := by
  have h := c5_throttle_retry_once emptyCacheEnv throttleFetch "device-token" rfl rfl
  refine ⟨rfl, rfl, h.1, ?_, ?_⟩
  · rw [h.2.1]
    rfl
  · rw [h.2.2.1 (by decide)]
    rfl

/-- Destructuring a property out of request.params.arguments and
interpolating it into a JS template literal: a present string
interpolates as itself, an absent property (undefined) as the text
undefined. -/
def argStr (args : List (String × String)) (key : String) : String :=
  (args.lookup key).getD "undefined"

/-- The remote call a switch case issues: either through the shared
graphRequest client (path, method, optional JSON body fields, where an
absent field stands for a JS undefined property that JSON.stringify
drops), or a direct fetch with its own headers and raw body, used only
by create_page. -/
inductive ApiCall where
  | graph (path : String) (method : String)
      (body : Option (List (String × Option String)))
  | direct (path : String) (method : String) (contentType : String) (body : String)
deriving DecidableEq, Repr

/-- The HTML document the create_page case sends. -/
def createPageBody (htmlContent : String) : String :=
  "<!DOCTYPE html><html><head><title>New Page</title></head><body>"
    ++ htmlContent ++ "</body></html>"

/-- The switch of the CallToolRequestSchema handler, server.js lines
281 to 392: for each registered tool name, the remote call its case
issues given the request arguments, with no validation of any argument;
none for a name the switch does not know. -/
def toolApiCall (args : List (String × String)) (name : String) : Option ApiCall :=
  if name = "list_notebooks" then
    some (.graph "/me/onenote/notebooks" "GET" none)
  else if name = "list_sections" then
    some (.graph ("/me/onenote/notebooks/" ++ argStr args "notebookId" ++ "/sections")
      "GET" none)
  else if name = "list_pages" then
    some (.graph ("/me/onenote/sections/" ++ argStr args "sectionId" ++ "/pages")
      "GET" none)
  else if name = "read_content" then
    some (.graph ("/me/onenote/pages/" ++ argStr args "pageId" ++ "/content")
      "GET" none)
  else if name = "create_notebook" then
    some (.graph "/me/onenote/notebooks" "POST"
      (some [("displayName", args.lookup "displayName")]))
  else if name = "create_section" then
    some (.graph ("/me/onenote/notebooks/" ++ argStr args "notebookId" ++ "/sections")
      "POST" (some [("displayName", args.lookup "displayName")]))
  else if name = "create_page" then
    some (.direct ("/me/onenote/sections/" ++ argStr args "sectionId" ++ "/pages")
      "POST" "text/html" (createPageBody (argStr args "htmlContent")))
  else
    none

/-- The create_page case, server.js lines 354 to 385: acquires a token
and issues its own fetch with no throttle handling; a non success
response throws an error carrying only the status text, and the body is
otherwise parsed as JSON. -/
def createPageRequest (env : ProviderEnv) (fetchResp : Nat → HttpResponse) :
    List AuthCall × HttpTrace :=
  match getAccessToken env with
  | (calls, .error e) => (calls, { fetchCount := 0, waits := [], result := .error e })
  | (calls, .ok _) =>
      let r := fetchResp 0
      if respOk r then
        (calls, { fetchCount := 1, waits := [], result := .ok (.json r.body) })
      else
        (calls, { fetchCount := 1, waits := [],
                  result := .error ("Failed to create page: " ++ r.statusText) })

/-- JSON string escaping of one character, as JSON.stringify performs
it on the quote and backslash characters; the error messages handled
here contain no control characters. -/
def jsonEscapeChar (c : Char) : String :=
  if c = '"' then "\\\"" else if c = '\\' then "\\\\" else String.singleton c

/-- JSON string escaping of a text. -/
def jsonEscape (s : String) : String :=
  String.join (s.data.map jsonEscapeChar)

/-- A JSON string literal holding the given text. -/
def jsonQuote (s : String) : String :=
  "\"" ++ jsonEscape s ++ "\""

/-- ErrorCode.MethodNotFound of the tool invocation protocol SDK. -/
def methodNotFoundCode : Int := -32601

/-- The message property of an McpError thrown with the given code and
message, as the SDK constructor assembles it. -/
def mcpErrorMessage (code : Int) (msg : String) : String :=
  "MCP error " ++ toString code ++ ": " ++ msg

/-- One incoming tool call: the tool name and the string arguments
present on request.params.arguments. -/
structure ToolRequest where
  name : String
  arguments : List (String × String)
deriving DecidableEq, Repr

/-- The handler reply: the text of its single content item and the
isError flag. -/
structure ToolResponse where
  text : String
  isError : Bool
deriving DecidableEq, Repr

/-- The catch branch of the tool call handler, server.js lines 393 to
406: the thrown message is wrapped as a JSON object with an error field
and returned with isError true; the process keeps running. -/
def errorResponse (msg : String) : ToolResponse :=
  { text := "\x7b\"error\":" ++ jsonQuote msg ++ "\x7d", isError := true }

/-- Environment of one tool call: the provider environment, the fetch
oracle of the request, and the JSON rendering of successful results
(the JSON.stringify and value projections of the source, kept opaque
since no claim depends on them). -/
structure ExecEnv where
  provider : ProviderEnv
  fetchResp : Nat → HttpResponse
  render : String → GraphResult → String

/-- The CallToolRequestSchema handler, server.js lines 279 to 407: the
switch dispatches on the tool name, create_page issuing its own fetch
and every other known case going through graphRequest; an unknown name
throws McpError MethodNotFound; every error thrown inside the switch is
caught and converted into an isError response. -/
def callToolHandler (env : ExecEnv) (req : ToolRequest) : ToolResponse :=
  match toolApiCall req.arguments req.name with
  | none =>
      errorResponse (mcpErrorMessage methodNotFoundCode ("Unknown tool: " ++ req.name))
  | some (ApiCall.direct _ _ _ _) =>
      match (createPageRequest env.provider env.fetchResp).2.result with
      | .ok r => { text := env.render req.name r, isError := false }
      | .error e => errorResponse e
  | some (ApiCall.graph _ _ _) =>
      match (graphRequest env.provider env.fetchResp).2.result with
      | .ok r => { text := env.render req.name r, isError := false }
      | .error e => errorResponse e

/-- Counterexample to C4 as stated: the list_sections case invoked with
no notebookId argument is not rejected; it issues the remote call with
the JS undefined value interpolated into the request path. -/
theorem c4_counterexample :
    List.lookup "notebookId" ([] : List (String × String)) = none ∧
    toolApiCall [] "list_sections" =
      some (ApiCall.graph "/me/onenote/notebooks/undefined/sections" "GET" none) := by
  exact ⟨rfl, rfl⟩

/-- C4 amended: the dispatcher validates nothing. For every argument
record missing the required arguments, each operation still issues its
remote call, the missing value interpolated as the text undefined into
the request path or html body, or dropped from the JSON body the way
JSON.stringify drops an undefined property. -/
theorem c4_amended_missing_args_still_reach_api (args : List (String × String))
    (hnb : args.lookup "notebookId" = none)
    (hsec : args.lookup "sectionId" = none)
    (hpg : args.lookup "pageId" = none)
    (hdn : args.lookup "displayName" = none)
    (hhtml : args.lookup "htmlContent" = none) :
    toolApiCall args "list_sections" =
      some (ApiCall.graph "/me/onenote/notebooks/undefined/sections" "GET" none) ∧
    toolApiCall args "list_pages" =
      some (ApiCall.graph "/me/onenote/sections/undefined/pages" "GET" none) ∧
    toolApiCall args "read_content" =
      some (ApiCall.graph "/me/onenote/pages/undefined/content" "GET" none) ∧
    toolApiCall args "create_notebook" =
      some (ApiCall.graph "/me/onenote/notebooks" "POST"
        (some [("displayName", none)])) ∧
    toolApiCall args "create_section" =
      some (ApiCall.graph "/me/onenote/notebooks/undefined/sections" "POST"
        (some [("displayName", none)])) ∧
    toolApiCall args "create_page" =
      some (ApiCall.direct "/me/onenote/sections/undefined/pages" "POST" "text/html"
        (createPageBody "undefined")) := by
  refine ⟨?_, ?_, ?_, ?_, ?_, ?_⟩ <;>
    simp [toolApiCall, argStr, hnb, hsec, hpg, hdn, hhtml]

/-- Witness for the amended C4 at the empty argument record. -/
theorem c4_amended_witness :
    List.lookup "sectionId" ([] : List (String × String)) = none ∧
    toolApiCall [] "list_pages" =
      some (ApiCall.graph "/me/onenote/sections/undefined/pages" "GET" none) := by
  exact ⟨rfl,
    (c4_amended_missing_args_still_reach_api [] rfl rfl rfl rfl rfl).2.1⟩

/-- C9: the create_page case does not go through the shared graphRequest
client: it issues a direct fetch of its own, a 429 response to it is
never retried (exactly one fetch, no wait), and its failure message
carries only the HTTP status text, never the server provided message;
the six other operations all route through the shared client. -/
theorem c9_create_page_bypasses_shared_client
    (args : List (String × String)) (env : ProviderEnv)
    (fetchResp : Nat → HttpResponse) (tok : String)
    (hauth : (getAccessToken env).2 = .ok tok)
    (h429 : (fetchResp 0).status = 429) :
    toolApiCall args "create_page" =
      some (ApiCall.direct ("/me/onenote/sections/" ++ argStr args "sectionId" ++ "/pages")
        "POST" "text/html" (createPageBody (argStr args "htmlContent"))) ∧
    (createPageRequest env fetchResp).2.fetchCount = 1 ∧
    (createPageRequest env fetchResp).2.waits = [] ∧
    (createPageRequest env fetchResp).2.result =
      .error ("Failed to create page: " ++ (fetchResp 0).statusText) ∧
    (∃ p b, toolApiCall args "list_notebooks" = some (ApiCall.graph p "GET" b)) ∧
    (∃ p b, toolApiCall args "list_sections" = some (ApiCall.graph p "GET" b)) ∧
    (∃ p b, toolApiCall args "list_pages" = some (ApiCall.graph p "GET" b)) ∧
    (∃ p b, toolApiCall args "read_content" = some (ApiCall.graph p "GET" b)) ∧
    (∃ p b, toolApiCall args "create_notebook" = some (ApiCall.graph p "POST" b)) ∧
    (∃ p b, toolApiCall args "create_section" = some (ApiCall.graph p "POST" b)) := by
  have hsplit : getAccessToken env = ((getAccessToken env).1, Except.ok tok) := by
    rw [← hauth]
  have hko : respOk (fetchResp 0) = false := by
    simp [respOk, h429]
  have hcp : createPageRequest env fetchResp =
      ((getAccessToken env).1,
        { fetchCount := 1, waits := [],
          result := .error ("Failed to create page: " ++ (fetchResp 0).statusText) }) := by
    unfold createPageRequest
    rw [hsplit]
    simp [hko]
  refine ⟨by simp [toolApiCall], ?_, ?_, ?_, ?_, ?_, ?_, ?_, ?_, ?_⟩
  · rw [hcp]
  · rw [hcp]
  · rw [hcp]
  · exact ⟨"/me/onenote/notebooks", none, by simp [toolApiCall]⟩
  · exact ⟨"/me/onenote/notebooks/" ++ argStr args "notebookId" ++ "/sections", none,
      by simp [toolApiCall]⟩
  · exact ⟨"/me/onenote/sections/" ++ argStr args "sectionId" ++ "/pages", none,
      by simp [toolApiCall]⟩
  · exact ⟨"/me/onenote/pages/" ++ argStr args "pageId" ++ "/content", none,
      by simp [toolApiCall]⟩
  · exact ⟨"/me/onenote/notebooks",
      some [("displayName", args.lookup "displayName")], by simp [toolApiCall]⟩
  · exact ⟨"/me/onenote/notebooks/" ++ argStr args "notebookId" ++ "/sections",
      some [("displayName", args.lookup "displayName")], by simp [toolApiCall]⟩

/-- Witness for C9: a concrete create_page fetch answered 429 is not
retried and fails with only the status text. -/
theorem c9_witness :
    (getAccessToken emptyCacheEnv).2 = .ok "device-token" ∧
    (throttleFetch 0).status = 429 ∧
    (createPageRequest emptyCacheEnv throttleFetch).2.fetchCount = 1 ∧
    (createPageRequest emptyCacheEnv throttleFetch).2.waits = [] ∧
    (createPageRequest emptyCacheEnv throttleFetch).2.result =
      .error "Failed to create page: Too Many Requests" := by
  have h := c9_create_page_bypasses_shared_client [] emptyCacheEnv throttleFetch
    "device-token" rfl rfl
  refine ⟨rfl, rfl, h.2.1, h.2.2.1, ?_⟩
  rw [h.2.2.2.1]
  rfl

/-- C10: for every tool call whose name is none of the seven registered
operations, the handler returns an isError result on the machine
readable channel rather than crashing: the thrown MethodNotFound
McpError is caught by the surrounding catch, and the returned text is
the JSON wrapped Unknown tool message. -/
theorem c10_unknown_tool_is_error_result (env : ExecEnv) (req : ToolRequest)
    (h : req.name ∉ ["list_notebooks", "list_sections", "list_pages", "read_content",
      "create_notebook", "create_section", "create_page"]) :
    (callToolHandler env req).isError = true ∧
    (callToolHandler env req).text =
      "\x7b\"error\":" ++
        jsonQuote (mcpErrorMessage methodNotFoundCode ("Unknown tool: " ++ req.name))
        ++ "\x7d" := by
  have hnone : toolApiCall req.arguments req.name = none := by
    simp only [List.mem_cons, List.not_mem_nil, or_false, not_or] at h
    obtain ⟨h1, h2, h3, h4, h5, h6, h7⟩ := h
    simp [toolApiCall, h1, h2, h3, h4, h5, h6, h7]
  constructor <;> simp [callToolHandler, hnone, errorResponse]

/-- A concrete execution environment whose rendering keeps the body. -/
def sampleExecEnv : ExecEnv :=
  { provider := emptyCacheEnv,
    fetchResp := throttleFetch,
    render := fun _ r => match r with | .json b => b | .text b => b }

/-- Witness for C10 at the unknown tool name delete_page. -/
theorem c10_witness :
    ("delete_page" ∉ ["list_notebooks", "list_sections", "list_pages", "read_content",
      "create_notebook", "create_section", "create_page"]) ∧
    (callToolHandler sampleExecEnv { name := "delete_page", arguments := [] }).isError
      = true ∧
    (callToolHandler sampleExecEnv { name := "delete_page", arguments := [] }).text
      = "\x7b\"error\":\"MCP error -32601: Unknown tool: delete_page\"\x7d" := by
  have h := c10_unknown_tool_is_error_result sampleExecEnv
    { name := "delete_page", arguments := [] } (by decide)
  refine ⟨by decide, h.1, ?_⟩
  rw [h.2]
  rfl

/-- C2 amended: deserialize of a malformed blob fails, the cache plugin
does not catch the failure, and the token request aborts with that
error before any acquisition flow runs, the interactive device flow
included; the dispatcher catch then converts the error into an isError
result, so the process survives but the request is never completed
through the interactive path. -/
theorem c2_amended_corrupt_cache_aborts_request (env : ExecEnv) (e : String)
    (req : ToolRequest)
    (herr : getAllAccounts env.provider.cache = .error e)
    (hname : req.name = "list_notebooks") :
    getAccessToken env.provider = ([], .error e) ∧
    (callToolHandler env req).isError = true ∧
    (callToolHandler env req).text = "\x7b\"error\":" ++ jsonQuote e ++ "\x7d" := by
  have hga : getAccessToken env.provider = ([], .error e) := by
    unfold getAccessToken
    rw [herr]
  have hreq : toolApiCall req.arguments req.name =
      some (ApiCall.graph "/me/onenote/notebooks" "GET" none) := by
    simp [toolApiCall, hname]
  have hgr : graphRequest env.provider env.fetchResp =
      ([], { fetchCount := 0, waits := [], result := .error e }) := by
    unfold graphRequest
    rw [hga]
  refine ⟨hga, ?_, ?_⟩ <;> simp [callToolHandler, hreq, hgr, errorResponse]

/-- A concrete execution environment over the corrupt store. -/
def corruptExecEnv : ExecEnv :=
  { provider := corruptCacheEnv,
    fetchResp := throttleFetch,
    render := fun _ r => match r with | .json b => b | .text b => b }

/-- Witness for the amended C2: a concrete list_notebooks call over the
corrupt store yields an isError reply carrying the deserialize error. -/
theorem c2_amended_witness :
    getAllAccounts corruptExecEnv.provider.cache =
      .error "ClientAuthError: invalid cache blob" ∧
    (callToolHandler corruptExecEnv
      { name := "list_notebooks", arguments := [] }).isError = true ∧
    (callToolHandler corruptExecEnv
      { name := "list_notebooks", arguments := [] }).text =
      "\x7b\"error\":\"ClientAuthError: invalid cache blob\"\x7d" := by
  have h := c2_amended_corrupt_cache_aborts_request corruptExecEnv
    "ClientAuthError: invalid cache blob"
    { name := "list_notebooks", arguments := [] } rfl rfl
  refine ⟨rfl, h.2.1, ?_⟩
  rw [h.2.2]
  rfl
